import Mathlib

/-!
Shallow embedding of the whorl-client inventory item lifecycle.

The Python sources embedded here are:
* src/src/inventory/Acquire.py   (class Acquisition: batch acquisition, pyz validation,
  compression of an item file into a single-entry zip archive)
* src/src/inventory/Use.py       (class Usage: envelope decoding and item execution)
* src/cli/src/inventory/Instance.py (class Instance: loose-file validation)
* src/src/inventory/Packager.py  (class Packager: name derivation, structure validation,
  entrypoint injection, package build)
* src/src/inventory/specs/ItemSpec.py (class ItemSpec: item defaults)

Modelling conventions:
* A Python str is a list of Unicode codepoints (`PyStr := List Nat`).
* Python bytes are lists of naturals below 256 (`List Nat`, with explicit bounds
  where they matter).
* The zipfile library is modelled as an injective container serialization
  (`zipBytes` / `unzipBytes`) that starts with the fixed ZIP local-file-header
  signature PK 03 04 mandated by the ZIP format; DEFLATE compression is
  content-preserving and is abstracted away, and the 32-bit length fields of the
  real format are modelled by an unbounded injective length encoding, since no
  claim depends on field widths.
* Fallible Python code (exceptions) is modelled with Option/Except.
-/

/-- A Python string: a list of Unicode codepoints. -/
abbrev PyStr := List Nat

/-- Codepoints of a Lean string literal, used to write concrete Python strings. -/
def strLit (s : String) : PyStr := s.data.map Char.toNat

/-- The codepoint of the ASCII single-quote character U+0027. -/
def squo : Nat := 39

/-! ## Hexadecimal text encoding (Python bytes.hex / bytes.fromhex)

`bytes.fromhex` also tolerates ASCII spaces between byte pairs; no input in this
development contains whitespace, so that tolerance is not modelled. -/

/-- Value of one hex digit codepoint (0-9, a-f, A-F), as bytes.fromhex accepts. -/
def hexDigitVal (c : Nat) : Option Nat :=
  if 48 ≤ c ∧ c ≤ 57 then some (c - 48)
  else if 97 ≤ c ∧ c ≤ 102 then some (c - 87)
  else if 65 ≤ c ∧ c ≤ 70 then some (c - 55)
  else none

/-- Consume hex digits two at a time; fail on an odd count or a non-hex digit. -/
def fromhexPairs : List Nat → Option (List Nat)
  | [] => some []
  | [_] => none
  | c1 :: c2 :: rest =>
    match hexDigitVal c1, hexDigitVal c2, fromhexPairs rest with
    | some hi, some lo, some bs => some ((16 * hi + lo) :: bs)
    | _, _, _ => none

/-- Model of Python `bytes.fromhex(s)`: a hex string to the bytes it denotes. -/
def bytes_fromhex (s : PyStr) : Option (List Nat) := fromhexPairs s

/-- Lowercase hex digit for a value below 16, as `bytes.hex` produces. -/
def toHexDigit (n : Nat) : Nat := if n < 10 then 48 + n else 87 + n

/-- Model of Python `bytes.hex(b)`: two lowercase hex digits per byte. -/
def bytes_hex (bs : List Nat) : PyStr :=
  bs.flatMap (fun b => [toHexDigit (b / 16), toHexDigit (b % 16)])

/-! ## UTF-8 (Python str.encode / bytes.decode) -/

/-- UTF-8 encoding of one codepoint (meaningful for valid scalar values). -/
def utf8EncodeChar (n : Nat) : List Nat :=
  if n < 0x80 then [n]
  else if n < 0x800 then [0xC0 + n / 0x40, 0x80 + n % 0x40]
  else if n < 0x10000 then [0xE0 + n / 0x1000, 0x80 + n / 0x40 % 0x40, 0x80 + n % 0x40]
  else [0xF0 + n / 0x40000, 0x80 + n / 0x1000 % 0x40, 0x80 + n / 0x40 % 0x40, 0x80 + n % 0x40]

/-- Model of Python `s.encode("utf-8")`. -/
def utf8Encode (s : PyStr) : List Nat := s.flatMap utf8EncodeChar

/-- Fuel-indexed UTF-8 decoder; the fuel bounds the number of decoded characters
and is instantiated with the byte count, which always suffices because every
character consumes at least one byte.  Rejects stray continuation bytes,
overlong forms, surrogates and codepoints beyond U+10FFFF, as Python
`bytes.decode("utf-8")` does. -/
def utf8DecodeGo : Nat → List Nat → Option (List Nat)
  | _, [] => some []
  | 0, _ :: _ => none
  | fuel + 1, b :: bs =>
    if b < 0x80 then (utf8DecodeGo fuel bs).map (fun r => b :: r)
    else if b < 0xC2 then none
    else if b < 0xE0 then
      match bs with
      | b2 :: bs2 =>
        if 0x80 ≤ b2 ∧ b2 < 0xC0 then
          (utf8DecodeGo fuel bs2).map (fun r => ((b - 0xC0) * 0x40 + (b2 - 0x80)) :: r)
        else none
      | [] => none
    else if b < 0xF0 then
      match bs with
      | b2 :: b3 :: bs3 =>
        if (0x80 ≤ b2 ∧ b2 < 0xC0) ∧ (0x80 ≤ b3 ∧ b3 < 0xC0) then
          let cp := (b - 0xE0) * 0x1000 + (b2 - 0x80) * 0x40 + (b3 - 0x80)
          if cp < 0x800 ∨ (0xD800 ≤ cp ∧ cp < 0xE000) then none
          else (utf8DecodeGo fuel bs3).map (fun r => cp :: r)
        else none
      | _ => none
    else if b < 0xF5 then
      match bs with
      | b2 :: b3 :: b4 :: bs4 =>
        if (0x80 ≤ b2 ∧ b2 < 0xC0) ∧ (0x80 ≤ b3 ∧ b3 < 0xC0) ∧ (0x80 ≤ b4 ∧ b4 < 0xC0) then
          let cp := (b - 0xF0) * 0x40000 + (b2 - 0x80) * 0x1000 + (b3 - 0x80) * 0x40 + (b4 - 0x80)
          if cp < 0x10000 ∨ 0x110000 ≤ cp then none
          else (utf8DecodeGo fuel bs4).map (fun r => cp :: r)
        else none
      | _ => none
    else none

/-- Model of Python `b.decode("utf-8")`. -/
def utf8Decode (l : List Nat) : Option PyStr := utf8DecodeGo l.length l

/-! ## The zip container model (Python zipfile)

`zipBytes` serializes a list of (entry name, entry bytes) pairs; `unzipBytes`
is its partial inverse.  Entry names are stored UTF-8 encoded, as zipfile
stores them. -/

/-- The fixed ZIP local-file-header signature: the bytes of "PK", 3, 4. -/
def zipMagic : List Nat := [0x50, 0x4B, 0x03, 0x04]

/-- Injective unbounded length encoding used for the count and length fields of
the modelled container. -/
def lenBytes (n : Nat) : List Nat := List.replicate n 1 ++ [0]

/-- Read back a `lenBytes` field, returning the value and the remaining bytes. -/
def readLen : List Nat → Option (Nat × List Nat)
  | 0 :: rest => some (0, rest)
  | 1 :: rest => (readLen rest).map (fun p => (p.1 + 1, p.2))
  | _ => none

/-- Read exactly `n` bytes, returning them and the remaining bytes. -/
def readChunk : Nat → List Nat → Option (List Nat × List Nat)
  | 0, l => some ([], l)
  | _ + 1, [] => none
  | n + 1, b :: l => (readChunk n l).map (fun p => (b :: p.1, p.2))

/-- Serialization of one archive entry: name length, UTF-8 name, data length, data. -/
def zipEntryBytes (e : PyStr × List Nat) : List Nat :=
  lenBytes (utf8Encode e.1).length ++ utf8Encode e.1 ++ lenBytes e.2.length ++ e.2

/-- Serialization of a whole archive: signature, entry count, entries. -/
def zipBytes (entries : List (PyStr × List Nat)) : List Nat :=
  zipMagic ++ lenBytes entries.length ++ entries.flatMap zipEntryBytes

/-- Parse `count` consecutive entries, requiring the input to end exactly after them. -/
def readEntries : Nat → List Nat → Option (List (PyStr × List Nat))
  | 0, [] => some []
  | 0, _ :: _ => none
  | k + 1, l =>
    (readLen l).bind fun p1 =>
    (readChunk p1.1 p1.2).bind fun pn =>
    (utf8Decode pn.1).bind fun name =>
    (readLen pn.2).bind fun p2 =>
    (readChunk p2.1 p2.2).bind fun pd =>
    (readEntries k pd.2).map fun es => (name, pd.1) :: es

/-- Open an archive: check the ZIP signature, then parse the entry list.
A byte string that does not start with the signature is not a zip archive. -/
def unzipBytes (l : List Nat) : Option (List (PyStr × List Nat)) :=
  match l with
  | 0x50 :: 0x4B :: 0x03 :: 0x04 :: rest =>
    (readLen rest).bind fun p => readEntries p.1 p.2
  | _ => none

/-- `ZipFile.read(name)` / `ZipFile.open(name)`: the first entry with that name. -/
def zipReadName (name : PyStr) (entries : List (PyStr × List Nat)) : Option (List Nat) :=
  (entries.find? (fun e => e.1 == name)).map (fun e => e.2)

/-! ## The acquisition-side encoder (Acquire.py) and use-side decoder (Use.py) -/

/-- `Acquisition.__compress_file` (src/src/inventory/Acquire.py, lines 169-183):
reads the item file bytes and writes them as the single entry, named
`instance.name`, of a fresh compressed zip archive, returning the archive bytes. -/
def compress_file (name : PyStr) (binary_data : List Nat) : List Nat :=
  zipBytes [(name, binary_data)]

/-- Modelled from the spec: the text-safe binary-to-text transform of the
envelope.  Section 4.3 says encode "wraps sourceBytes as the single entry of a
compressed archive, then applies a text-safe binary-to-text transform
(e.g. hexadecimal) to the compressed bytes".  The compression half is
`compress_file` from Acquire.py; the hexadecimal half is not in src/ (the
client uploads the raw archive and the stored `item_bytestring` field is
produced outside the client), so it is modelled here from the spec words. -/
def encode_envelope (name : PyStr) (b : List Nat) : PyStr :=
  bytes_hex (compress_file name b)

/-- `Usage.__decode_item_file` (src/src/inventory/Use.py, lines 76-110):
`bytes.fromhex(item_bytestring).decode("utf-8")`, write that string as the
single entry named `f"{item_name}.pyz"` of a fresh in-memory zip, read the
entry back, `.decode("utf-8")`, `bytes.fromhex` again, open the result as a
zip archive and return the bytes of `zf.namelist()[0]`.  Every raised
exception (hex error, unicode error, bad archive, IndexError on an empty
namelist) is modelled as `none`. -/
def decode_item_file (item_name : PyStr) (item_bytestring : PyStr) : Option (List Nat) :=
  let item := item_name ++ strLit ".pyz"
  (bytes_fromhex item_bytestring).bind fun raw =>
  (utf8Decode raw).bind fun zip_bytestring =>
  (unzipBytes (zipBytes [(item, utf8Encode zip_bytestring)])).bind fun entries1 =>
  (zipReadName item entries1).bind fun zdata =>
  (utf8Decode zdata).bind fun s2 =>
  (bytes_fromhex s2).bind fun archive =>
  (unzipBytes archive).bind fun zf =>
  zf.head?.map fun e => e.2

/-! ## Packager.py: name derivation, entrypoint injection, validation, build -/

/-- Python `str.capitalize` on its ASCII fragment: first codepoint uppercased,
the rest lowercased (all identifiers in the claims are ASCII). -/
def toUpperCp (c : Nat) : Nat := if 97 ≤ c ∧ c ≤ 122 then c - 32 else c

/-- ASCII lowercasing of one codepoint. -/
def toLowerCp (c : Nat) : Nat := if 65 ≤ c ∧ c ≤ 90 then c + 32 else c

/-- Python `word.capitalize()`. -/
def pyCapitalize : PyStr → PyStr
  | [] => []
  | c :: cs => toUpperCp c :: cs.map toLowerCp

/-- Python `s.split(sep)` for a one-codepoint separator. -/
def pySplit (sep : Nat) : PyStr → List PyStr
  | [] => [[]]
  | c :: cs =>
    if c == sep then [] :: pySplit sep cs
    else
      match pySplit sep cs with
      | r :: rs => (c :: r) :: rs
      | [] => [[c]]

/-- `Packager.snake_to_camel` (src/src/inventory/Packager.py, lines 15-18):
join, with empty separator, of word.capitalize() for each word of the split of name on underscores. -/
def snake_to_camel (name : PyStr) : PyStr :=
  (pySplit 95 name).flatMap pyCapitalize

/-- `Packager.__init__`: `self.module_name = self.snake_to_camel(os.path.basename(directory))`. -/
def packager_module_name (dir_basename : PyStr) : PyStr := snake_to_camel dir_basename

/-- `Packager.__init__`: `self.pyz_path = ... f"{self.module_name}.pyz"`. -/
def packager_pyz_name (dir_basename : PyStr) : PyStr :=
  packager_module_name dir_basename ++ strLit ".pyz"

/-- `Packager._validate_structure` required file `f"{self.module_name}.py"`. -/
def packager_module_file (dir_basename : PyStr) : PyStr :=
  packager_module_name dir_basename ++ strLit ".py"

/-- The marker checked by `Packager._add_entrypoint`: the text of
`if __name__ == SQ__main__SQ`, where SQ stands for the single-quote character. -/
def mainGuardMarker : PyStr :=
  strLit "if __name__ == " ++ [squo] ++ strLit "__main__" ++ [squo]

/-- The appended launcher block: two newlines, the guard marker, a colon, a
newline, four spaces, the module name, and the call of use on a fresh
object of that class. -/
def entrypoint_code (module_name : PyStr) : PyStr :=
  strLit "\n\n" ++ mainGuardMarker ++ strLit ":\n    " ++ module_name ++ strLit "().use()"

/-- Python substring containment: `needle in hay` on str. -/
def strContains (hay needle : PyStr) : Bool :=
  (List.range (hay.length + 1)).any (fun i => (hay.drop i).take needle.length == needle)

/-- `Packager._add_entrypoint` (src/src/inventory/Packager.py, lines 92-103) as a
transform of the staged module file content: append `entrypoint_code` only when
the `mainGuardMarker` is not already present. -/
def add_entrypoint (module_name : PyStr) (content : PyStr) : PyStr :=
  if strContains content mainGuardMarker then content
  else content ++ entrypoint_code module_name

/-- The result of evaluating a meta.py candidate: whether `exec_module` succeeds,
and the `metadata` attribute when it is defined and is a dict (its key-value
pairs; `none` when the attribute is missing or not a dict). -/
structure MetaMod where
  execOk : Bool
  metadata : Option (List (PyStr × PyStr))
deriving DecidableEq

/-- A source directory as `Packager` observes it: which required files exist,
the evaluation result of meta.py, the evaluation result of the module file
(does it execute, does it define the expected class), the raw module file
content, and the remaining files copied verbatim by staging. -/
structure SrcDir where
  hasMetaFile : Bool
  hasModuleFile : Bool
  metaMod : MetaMod
  moduleExecOk : Bool
  classPresent : Bool
  moduleContent : PyStr
  otherFiles : List (PyStr × PyStr)
deriving DecidableEq

/-- The exceptions raised by Packager.py.  The spec taxonomy maps onto them as:
StructureError and OutputExistsError are raised as FileNotFoundError and
FileExistsError, MetadataError and InterfaceError as ValueError;
`Packager.package` re-raises every failure as RuntimeError chaining the cause.
`metadataError` itself never occurs in the code; it exists in this type so that
statements about it can be written. -/
inductive PkgErr where
  | fileNotFoundError (missing : List PyStr)
  | valueError (msg : PyStr)
  | fileExistsError
  | metadataError
  | runtimeError (cause : PkgErr)
deriving DecidableEq

/-- `Packager._validate_structure` (src/src/inventory/Packager.py, lines 37-77):
collect the missing required files into one FileNotFoundError; then require
meta.py to execute and define a dict named `metadata` (ValueError otherwise);
then require the module file to execute and define a class named after the
module (ValueError otherwise).  No individual metadata keys are inspected. -/
def validate_structure (module_name : PyStr) (d : SrcDir) : Except PkgErr Unit :=
  let missing :=
    (if d.hasMetaFile then [] else [strLit "meta.py"])
      ++ (if d.hasModuleFile then [] else [module_name ++ strLit ".py"])
  if missing.isEmpty then
    if d.metaMod.execOk then
      match d.metaMod.metadata with
      | none => .error (.valueError (strLit "meta.py must define a metadata dictionary"))
      | some _ =>
        if d.moduleExecOk then
          if d.classPresent then .ok ()
          else .error (.valueError (strLit "Module must contain a class named module_name"))
        else .error (.valueError (strLit "Invalid module file"))
    else .error (.valueError (strLit "Invalid meta.py file"))
  else .error (.fileNotFoundError missing)

/-- The built .pyz archive: the zipapp entry reference `<module>:<TypeName>`
(both components equal `module_name`) and the staged files, with the
entrypoint block ensured on the module file. -/
structure ZFile where
  mainEntry : PyStr
  files : List (PyStr × PyStr)
deriving DecidableEq

/-- `_prepare_staging_area` + `_add_entrypoint` + `zipapp.create_archive`:
the archive built from a staged source directory. -/
def build_archive (module_name : PyStr) (d : SrcDir) : ZFile :=
  ⟨module_name ++ strLit ":" ++ module_name,
   (module_name ++ strLit ".py", add_entrypoint module_name d.moduleContent) :: d.otherFiles⟩

/-- `Packager.package` (src/src/inventory/Packager.py, lines 126-164).
`prior` is the file currently at `self.pyz_path` (`none` when absent); the
second component of the result is the file at that path afterwards.  The
existence check runs first: `if os.path.exists(self.pyz_path) and not force:
raise FileExistsError`.  Every exception escaping the body is re-raised as
`RuntimeError(...) from e`, modelled by the `runtimeError` wrapper. -/
def package (module_name : PyStr) (d : SrcDir) (prior : Option ZFile) (force : Bool) :
    Except PkgErr ZFile × Option ZFile :=
  if prior.isSome && !force then (.error (.runtimeError .fileExistsError), prior)
  else
    match validate_structure module_name d with
    | .error e => (.error (.runtimeError e), prior)
    | .ok _ =>
      let arc := build_archive module_name d
      (.ok arc, some arc)

/-! ## Instance.py and the process-wide import machinery

`Instance.__validate_file` loads candidates with `importlib.import_module`,
which consults the process-wide `sys.modules` cache before loading from disk.
The cache is modelled explicitly and threaded through every validation. -/

/-- What validation observes about a class defined by a candidate module:
whether its zero-argument construction succeeds, whether the resulting object
has a `use` attribute, and whether `ItemSpec` is in the MRO of the class. -/
structure PyClassV where
  instOk : Bool
  hasUse : Bool
  specInMro : Bool
deriving DecidableEq

/-- What validation observes about a candidate module: whether importing
(parsing and executing) it succeeds, and the classes it defines. -/
structure PyModuleV where
  importOk : Bool
  classes : List (PyStr × PyClassV)
deriving DecidableEq

/-- The process-wide `sys.modules` cache: module name to loaded module. -/
abbrev ModCache := List (PyStr × PyModuleV)

/-- `importlib.import_module(name)`: return the cached module when `name` is in
`sys.modules`; otherwise load it from the filesystem `fs`, caching it on
success.  A failed import raises (here: `none`) and caches nothing. -/
def import_module (cache : ModCache) (fs : PyStr → Option PyModuleV) (name : PyStr) :
    Option PyModuleV × ModCache :=
  match List.lookup name cache with
  | some m => (some m, cache)
  | none =>
    match fs name with
    | some m => if m.importOk then (some m, (name, m) :: cache) else (none, cache)
    | none => (none, cache)

/-- `filename.split(".")[0]`: the codepoints before the first dot. -/
def splitDotHead (filename : PyStr) : PyStr := filename.takeWhile (fun c => c != 46)

/-- The checks of `Instance.__validate_file` once the module is in hand:
`self.mod = getattr(self.object, self.name)` (handled by the caller),
`self.mod().use` (construction succeeds and the object has `use`), and
`ItemSpec in self.mod.__mro__`. -/
def classCheck (cls : PyClassV) : Bool := cls.instOk && cls.hasUse && cls.specInMro

/-- `Instance.__validate_file` (src/cli/src/inventory/Instance.py, lines 17-34):
derive the module name from the filename, import it through the process-wide
cache, look up the identically named class and run `classCheck`; every failure
is caught and recorded as `valid = False`.  Returns the verdict and the cache
left behind. -/
def validate_file (cache : ModCache) (fs : PyStr → Option PyModuleV) (filename : PyStr) :
    Bool × ModCache :=
  let name := splitDotHead filename
  match import_module cache fs name with
  | (some m, cache2) =>
    match List.lookup name m.classes with
    | some cls => (classCheck cls, cache2)
    | none => (false, cache2)
  | (none, cache2) => (false, cache2)

/-- The exceptions that matter to the acquisition batch loop and the loader. -/
inductive PyErr where
  | attributeError (name : PyStr)
  | typeError
  | badZipFile
  | userError (msg : PyStr)
  | executionError (cause : PyErr)
deriving DecidableEq

/-- `Instance.__init__` (src/cli/src/inventory/Instance.py, lines 10-15).
`__validate_file` catches its own exceptions and sets `valid = False`, but
`__init__` then runs `self.source = inspect.getsource(self.object)` and
`self.__enumerate_properties()` unconditionally:
* a failed import leaves `self.object` unset, so `getsource` raises
  AttributeError("object");
* a missing class leaves `self.mod` unset, so `__enumerate_properties`
  raises AttributeError("mod") at `instance = self.mod()`;
* a class whose constructor raises makes `self.mod()` raise again there.
Those exceptions escape the constructor; `.ok` carries the `valid` verdict
and the import cache left behind. -/
def instance_init (cache : ModCache) (fs : PyStr → Option PyModuleV) (filename : PyStr) :
    Except PyErr (Bool × ModCache) :=
  let name := splitDotHead filename
  match import_module cache fs name with
  | (none, _) => .error (.attributeError (strLit "object"))
  | (some m, cache2) =>
    match List.lookup name m.classes with
    | none => .error (.attributeError (strLit "mod"))
    | some cls =>
      if cls.instOk then .ok (classCheck cls, cache2)
      else .error .typeError

/-! ## Acquire.py: pyz validation and the batch loop -/

/-- A .pyz candidate as `Acquisition.__validate_pyz_file` observes it: the item
name derived from the file base name, whether the path exists, whether
`zipfile.ZipFile(...)` / `extractall` succeed, and the module the extracted
tree provides for import (`none` when importing it fails). -/
structure PyzCand where
  name : PyStr
  pathExists : Bool
  archiveOk : Bool
  content : Option PyModuleV
deriving DecidableEq

/-- The checks of `__validate_pyz_file` once the module is imported:
`hasattr(module, item_name)`, `issubclass(item_class, ItemSpec)`, then
instantiation and a hasattr check for use on the object; each failure prints and
returns False. -/
def pyzCheckModule (name : PyStr) (m : PyModuleV) : Bool :=
  match List.lookup name m.classes with
  | none => false
  | some cls => cls.specInMro && cls.instOk && cls.hasUse

/-- `Acquisition.__validate_pyz_file` (src/src/inventory/Acquire.py, lines 58-124).
A missing path returns False.  `zipfile.ZipFile` / `extractall` run inside a
try block that has only a `finally`, so a bad archive raises out of the
method.  The import (through the process-wide cache) and all later checks run
inside an inner `try/except Exception`, so their failures return False. -/
def validate_pyz_file (cache : ModCache) (c : PyzCand) : Except PyErr (Bool × ModCache) :=
  if !c.pathExists then .ok (false, cache)
  else if !c.archiveOk then .error .badZipFile
  else
    match import_module cache (fun n => if n == c.name then c.content else none) c.name with
    | (some m, cache2) => .ok (pyzCheckModule c.name m, cache2)
    | (none, cache2) => .ok (false, cache2)

/-- One candidate file named on the acquisition command line. -/
inductive Candidate where
  | pyz (c : PyzCand)
  | py (filename : PyStr)
deriving DecidableEq

/-- `Acquisition.__init__` (src/src/inventory/Acquire.py, lines 44-57): process
the candidate files serially.  A .pyz file is validated and, when valid,
handled by `__handle_pyz_file` (which swallows every exception, so handling
never aborts); a validation returning False is skipped.  Any other file is
wrapped in `Instance(file)` and transmitted when `instance.valid`.  The loop
has no exception handling, so an exception from `Instance.__init__` or from a
bad .pyz archive aborts the remaining batch.  The result is the list of
candidates processed to the point of transmission/handling, and the raised
exception when the batch aborted. -/
def acquire (cache : ModCache) (fs : PyStr → Option PyModuleV) :
    List Candidate → List PyStr × Option PyErr
  | [] => ([], none)
  | Candidate.pyz c :: rest =>
    match validate_pyz_file cache c with
    | .error e => ([], some e)
    | .ok (true, cache2) =>
      let r := acquire cache2 fs rest
      (c.name :: r.1, r.2)
    | .ok (false, cache2) => acquire cache2 fs rest
  | Candidate.py f :: rest =>
    match instance_init cache fs f with
    | .error e => ([], some e)
    | .ok (valid, cache2) =>
      let r := acquire cache2 fs rest
      if valid then (f :: r.1, r.2) else r

/-! ## Use.py: executing a loaded item -/

/-- What `exec` of a loaded item source defines: the classes (with their
run-time behavior) and whether executing the module body itself raises. -/
structure PyUseClass where
  consumable : Bool
  instErr : Option PyErr
  useErr : Option PyErr
deriving DecidableEq

/-- The observable effect of `exec(self.instance.source, mod.__dict__)`. -/
structure PyModuleExec where
  execErr : Option PyErr
  classes : List (PyStr × PyUseClass)
deriving DecidableEq

/-- A request issued to the inventory store by the Use workflow. -/
inductive RequestR where
  | reduce (item_name : PyStr)
deriving DecidableEq

/-- `ItemSpec.consumable` default (src/src/inventory/specs/ItemSpec.py, line 26). -/
def itemSpec_consumable_default : Bool := true

/-- `Usage.__use_item` (src/src/inventory/Use.py, lines 111-129): execute the
item source in a fresh module namespace, `getattr(mod, self.item_name)().use()`,
then unconditionally PATCH the inventory reduce endpoint.  The method has no
try/except: whichever step raises first propagates its exception unchanged and
no reduce request is issued.  The result is the outcome paired with the list
of store requests issued. -/
def use_item (item_name : PyStr) (src : PyModuleExec) : Except PyErr Unit × List RequestR :=
  match src.execErr with
  | some e => (.error e, [])
  | none =>
    match List.lookup item_name src.classes with
    | none => (.error (.attributeError item_name), [])
    | some cls =>
      match cls.instErr with
      | some e => (.error e, [])
      | none =>
        match cls.useErr with
        | some e => (.error e, [])
        | none => (.ok (), [RequestR.reduce item_name])

/-- Discriminator: is this outcome an ExecutionError (the spec taxonomy wrapper)? -/
def isExecutionErrorRes (r : Except PyErr Unit) : Bool :=
  match r with
  | .error (.executionError _) => true
  | _ => false

/-! ## Concrete fixtures used by the counterexamples and witnesses -/

/-- A class that passes every validation check. -/
def goodClass : PyClassV := ⟨true, true, true⟩

/-- First candidate under identifier "thing": defines a valid class `thing`. -/
def c2m1 : PyModuleV := ⟨true, [(strLit "thing", goodClass)]⟩

/-- Second candidate under identifier "thing": defines no class at all. -/
def c2m2 : PyModuleV := ⟨true, []⟩

/-- Filesystem offering the first candidate as thing.py. -/
def c2fs1 : PyStr → Option PyModuleV := fun n => if n == strLit "thing" then some c2m1 else none

/-- Filesystem offering the second candidate as thing.py. -/
def c2fs2 : PyStr → Option PyModuleV := fun n => if n == strLit "thing" then some c2m2 else none

/-- Filesystem for the three-candidate batch: good1.py and good3.py are valid
items, bad2.py imports but defines no class named bad2. -/
def c3fs : PyStr → Option PyModuleV := fun n =>
  if n == strLit "good1" then some ⟨true, [(strLit "good1", goodClass)]⟩
  else if n == strLit "bad2" then some ⟨true, []⟩
  else if n == strLit "good3" then some ⟨true, [(strLit "good3", goodClass)]⟩
  else none

/-- The three-candidate batch of the spec scenario, as loose .py files. -/
def c3batch : List Candidate :=
  [Candidate.py (strLit "good1.py"), Candidate.py (strLit "bad2.py"),
   Candidate.py (strLit "good3.py")]

/-- A loaded module whose class `bomb` raises during `use()`. -/
def c4src : PyModuleExec :=
  ⟨none, [(strLit "bomb", ⟨true, none, some (.userError (strLit "boom"))⟩)]⟩

/-- A loaded module whose class `snack` is marked non-consumable and uses cleanly. -/
def c9src : PyModuleExec :=
  ⟨none, [(strLit "snack", ⟨false, none, none⟩)]⟩

/-- A source directory whose meta.py defines an empty metadata dict: it has
none of the keys name, author, version, description. -/
def c6dir : SrcDir := ⟨true, true, ⟨true, some []⟩, true, true, [], []⟩

/-- A fully valid source directory fixture. -/
def c7dir : SrcDir :=
  ⟨true, true, ⟨true, some [(strLit "name", strLit "widget")]⟩, true, true,
   strLit "pass", [(strLit "meta.py", strLit "metadata = ...")]⟩

/-! ## Helper lemmas -/

theorem hexDigitVal_toHexDigit : ∀ n : Fin 16, hexDigitVal (toHexDigit n.val) = some n.val := by
  decide

theorem toHexDigit_ascii : ∀ n : Fin 16, toHexDigit n.val < 0x80 := by decide

theorem fromhexPairs_bytes_hex (bs : List Nat) (h : ∀ b ∈ bs, b < 256) :
    fromhexPairs (bytes_hex bs) = some bs := by
  induction bs with
  | nil => rfl
  | cons b t ih =>
    have hb : b < 256 := h b (List.mem_cons_self b t)
    have h1 : hexDigitVal (toHexDigit (b / 16)) = some (b / 16) :=
      hexDigitVal_toHexDigit ⟨b / 16, by omega⟩
    have h2 : hexDigitVal (toHexDigit (b % 16)) = some (b % 16) :=
      hexDigitVal_toHexDigit ⟨b % 16, by omega⟩
    have ih2 := ih (fun x hx => h x (List.mem_cons_of_mem b hx))
    simp only [bytes_hex, List.flatMap_cons, List.cons_append, List.nil_append]
    simp only [bytes_hex] at ih2
    simp only [fromhexPairs, h1, h2, ih2]
    congr 2
    omega

theorem bytes_fromhex_bytes_hex (bs : List Nat) (h : ∀ b ∈ bs, b < 256) :
    bytes_fromhex (bytes_hex bs) = some bs :=
  fromhexPairs_bytes_hex bs h

theorem bytes_hex_ascii (bs : List Nat) (hbs : ∀ b ∈ bs, b < 256) :
    ∀ c ∈ bytes_hex bs, c < 0x80 := by
  intro c hc
  simp only [bytes_hex, List.mem_flatMap] at hc
  obtain ⟨b, hbmem, hb⟩ := hc
  have hblt : b < 256 := hbs b hbmem
  simp only [List.mem_cons, List.not_mem_nil, or_false] at hb
  have h1 := toHexDigit_ascii ⟨b / 16, by omega⟩
  have h2 := toHexDigit_ascii ⟨b % 16, by omega⟩
  rcases hb with hb | hb <;> subst hb <;> assumption

theorem utf8EncodeChar_ascii {c : Nat} (h : c < 0x80) : utf8EncodeChar c = [c] := by
  simp [utf8EncodeChar, h]

theorem utf8Encode_ascii (s : PyStr) (h : ∀ c ∈ s, c < 0x80) : utf8Encode s = s := by
  induction s with
  | nil => rfl
  | cons c t ih =>
    have hc : c < 0x80 := h c (List.mem_cons_self c t)
    have ih2 := ih (fun x hx => h x (List.mem_cons_of_mem c hx))
    simp only [utf8Encode, List.flatMap_cons, utf8EncodeChar_ascii hc]
    simp only [utf8Encode] at ih2
    simp [ih2]

theorem utf8DecodeGo_ascii (l : List Nat) : ∀ fuel, (∀ b ∈ l, b < 0x80) → l.length ≤ fuel →
    utf8DecodeGo fuel l = some l := by
  induction l with
  | nil => intro fuel _ _; cases fuel <;> rfl
  | cons b t ih =>
    intro fuel hb hlen
    match fuel with
    | 0 => simp at hlen
    | f + 1 =>
      have h1 : b < 0x80 := hb b (List.mem_cons_self b t)
      have h2 := ih f (fun x hx => hb x (List.mem_cons_of_mem b hx))
        (by simp at hlen; omega)
      simp [utf8DecodeGo, h1, h2]

theorem utf8Decode_ascii (l : List Nat) (h : ∀ b ∈ l, b < 0x80) :
    utf8Decode l = some l :=
  utf8DecodeGo_ascii l l.length h (le_refl _)

theorem utf8Decode_utf8Encode_ascii (s : PyStr) (h : ∀ c ∈ s, c < 0x80) :
    utf8Decode (utf8Encode s) = some s := by
  rw [utf8Encode_ascii s h]; exact utf8Decode_ascii s h

theorem readLen_lenBytes (n : Nat) (t : List Nat) :
    readLen (lenBytes n ++ t) = some (n, t) := by
  induction n with
  | zero => rfl
  | succ k ih =>
    simp only [lenBytes, List.replicate_succ, List.cons_append] at ih ⊢
    rw [readLen, ih]
    rfl

theorem readChunk_append (xs t : List Nat) :
    readChunk xs.length (xs ++ t) = some (xs, t) := by
  induction xs with
  | nil => rfl
  | cons b l ih => simp [readChunk, ih]

theorem readEntries_flatMap (es : List (PyStr × List Nat))
    (hn : ∀ e ∈ es, ∀ c ∈ e.1, c < 0x80) :
    readEntries es.length (es.flatMap zipEntryBytes) = some es := by
  induction es with
  | nil => rfl
  | cons e t ih =>
    have hne : ∀ c ∈ e.1, c < 0x80 := hn e (List.mem_cons_self e t)
    have iht := ih (fun x hx => hn x (List.mem_cons_of_mem e hx))
    simp only [List.flatMap_cons, List.length_cons, zipEntryBytes, List.append_assoc]
    rw [readEntries, readLen_lenBytes, Option.some_bind]
    rw [readChunk_append, Option.some_bind]
    rw [utf8Decode_utf8Encode_ascii e.1 hne, Option.some_bind]
    rw [readLen_lenBytes, Option.some_bind]
    rw [readChunk_append, Option.some_bind]
    rw [iht]
    rfl

theorem unzipBytes_zipBytes (es : List (PyStr × List Nat))
    (hn : ∀ e ∈ es, ∀ c ∈ e.1, c < 0x80) :
    unzipBytes (zipBytes es) = some es := by
  show unzipBytes (zipMagic ++ lenBytes es.length ++ es.flatMap zipEntryBytes) = some es
  simp only [zipMagic, List.cons_append, List.nil_append, List.append_assoc]
  rw [unzipBytes]
  rw [readLen_lenBytes, Option.some_bind, readEntries_flatMap es hn]

theorem lenBytes_lt_256 (n : Nat) : ∀ b ∈ lenBytes n, b < 256 := by
  intro b hb
  simp only [lenBytes, List.mem_append, List.mem_replicate, List.mem_singleton] at hb
  rcases hb with ⟨_, hb⟩ | hb <;> omega

theorem utf8Encode_lt_256_of_ascii (s : PyStr) (h : ∀ c ∈ s, c < 0x80) :
    ∀ b ∈ utf8Encode s, b < 256 := by
  rw [utf8Encode_ascii s h]
  intro b hb
  have := h b hb
  omega

theorem zipBytes_lt_256 (es : List (PyStr × List Nat))
    (hn : ∀ e ∈ es, ∀ c ∈ e.1, c < 0x80)
    (hc : ∀ e ∈ es, ∀ b ∈ e.2, b < 256) :
    ∀ b ∈ zipBytes es, b < 256 := by
  intro b hb
  simp only [zipBytes, List.mem_append] at hb
  rcases hb with (hb | hb) | hb
  · simp only [zipMagic, List.mem_cons, List.not_mem_nil, or_false] at hb
    rcases hb with hb | hb | hb | hb <;> omega
  · exact lenBytes_lt_256 _ b hb
  · simp only [List.mem_flatMap] at hb
    obtain ⟨e, he, hb⟩ := hb
    simp only [zipEntryBytes, List.mem_append] at hb
    rcases hb with ((hb | hb) | hb) | hb
    · exact lenBytes_lt_256 _ b hb
    · exact utf8Encode_lt_256_of_ascii e.1 (hn e he) b hb
    · exact lenBytes_lt_256 _ b hb
    · exact hc e he b hb

theorem ascii_append {s t : PyStr} (hs : ∀ c ∈ s, c < 0x80) (ht : ∀ c ∈ t, c < 0x80) :
    ∀ c ∈ s ++ t, c < 0x80 := by
  intro c hc
  rcases List.mem_append.mp hc with h | h
  · exact hs c h
  · exact ht c h

theorem decode_item_file_doublewrap (item : PyStr) (l : List Nat)
    (hi : ∀ c ∈ item, c < 0x80) (hl : ∀ b ∈ l, b < 256) :
    decode_item_file item (bytes_hex (utf8Encode (bytes_hex l))) =
      (unzipBytes l).bind (fun zf => zf.head?.map fun e => e.2) := by
  have hpyz : ∀ c ∈ strLit ".pyz", c < 0x80 := by decide
  have hitem2 : ∀ c ∈ item ++ strLit ".pyz", c < 0x80 := ascii_append hi hpyz
  have h1a : ∀ c ∈ bytes_hex l, c < 0x80 := bytes_hex_ascii l hl
  have h1b : ∀ c ∈ bytes_hex l, c < 256 := fun c hc => by have := h1a c hc; omega
  have hzip : unzipBytes (zipBytes [(item ++ strLit ".pyz", bytes_hex l)])
      = some [(item ++ strLit ".pyz", bytes_hex l)] := by
    refine unzipBytes_zipBytes _ ?_
    intro e he
    simp only [List.mem_singleton] at he
    subst he
    exact hitem2
  rw [decode_item_file]
  rw [utf8Encode_ascii _ h1a]
  rw [bytes_fromhex_bytes_hex _ h1b, Option.some_bind]
  rw [utf8Decode_ascii _ h1a, Option.some_bind]
  rw [utf8Encode_ascii _ h1a]
  rw [hzip, Option.some_bind]
  rw [zipReadName]
  have hfind : List.find? (fun e => e.1 == item ++ strLit ".pyz")
      [(item ++ strLit ".pyz", bytes_hex l)] = some (item ++ strLit ".pyz", bytes_hex l) := by
    (rw [List.find?_cons_of_pos]; simp)
  rw [hfind]
  simp only [Option.map_some', Option.some_bind]
  rw [utf8Decode_ascii _ h1a, Option.some_bind]
  rw [bytes_fromhex_bytes_hex _ hl, Option.some_bind]

/-! ## C1: the codec round-trip -/

/-- C1 counterexample: at the byte sequence b = [] (and entry name "Item",
item name "item"), decoding the envelope produced by the acquisition-time
encode step does not return b: it fails, because the use-time decoder applies
`bytes.fromhex` to the archive bytes themselves (which start with the
non-hex-digit signature bytes of "PK"), expecting a second hex layer that the
encode step never produced.  So `decode(encode(b)) = b` fails. -/
theorem C1_counterexample :
    decode_item_file (strLit "item") (encode_envelope (strLit "Item") []) = none := by
  decide

/-- C1, corrected: the decoder of `Usage.__decode_item_file` inverts the
acquisition-time compression only when the envelope carries two additional
hex-text layers beyond the one the spec describes: for every byte sequence b
(empty and arbitrary binary included) and ASCII entry/item names,
decoding hex(utf8(hex(compress(b)))) returns exactly b.  The single-layer
composition of the claim is refuted by `C1_counterexample`. -/
theorem C1_theorem (name item : PyStr) (b : List Nat)
    (hn : ∀ c ∈ name, c < 0x80) (hi : ∀ c ∈ item, c < 0x80) (hb : ∀ x ∈ b, x < 256) :
    decode_item_file item (bytes_hex (utf8Encode (bytes_hex (compress_file name b)))) =
      some b := by
  have hz : ∀ x ∈ compress_file name b, x < 256 := by
    simp only [compress_file]
    refine zipBytes_lt_256 _ ?_ ?_ <;> intro e he <;>
      simp only [List.mem_singleton] at he <;> subst he
    · exact hn
    · exact hb
  have hu : unzipBytes (compress_file name b) = some [(name, b)] := by
    simp only [compress_file]
    refine unzipBytes_zipBytes _ ?_
    intro e he
    simp only [List.mem_singleton] at he
    subst he
    exact hn
  rw [decode_item_file_doublewrap item _ hi hz, hu, Option.some_bind]
  rfl

/-- Witness for C1_theorem at the concrete byte sequence [0, 255]. -/
theorem C1_witness :
    decode_item_file (strLit "item")
      (bytes_hex (utf8Encode (bytes_hex (compress_file (strLit "Item") [0, 255])))) =
      some [0, 255] :=
  C1_theorem (strLit "Item") (strLit "item") [0, 255] (by decide) (by decide) (by decide)

/-! ## C5: zero- and multi-entry envelopes -/

/-- C5 counterexample: an envelope whose inner archive has two entries is not
rejected with a CodecError (no such rejection exists anywhere in Use.py); the
decoder silently returns the bytes of the first entry. -/
theorem C5_counterexample :
    decode_item_file (strLit "item")
      (bytes_hex (utf8Encode (bytes_hex (zipBytes [(strLit "a", [1]), (strLit "b", [2])])))) =
      some [1] := by
  decide

/-- C5, corrected: `Usage.__decode_item_file` performs no entry-count check at
all: for every inner archive, decoding returns the bytes of the first entry when
one exists (silently ignoring the others), and fails through the IndexError of
`zf.namelist()[0]` (not through any CodecError, which does not exist in the
code) when the archive has zero entries.  Both cases are this one statement:
the result is `head?` of the entry list. -/
theorem C5_theorem (item : PyStr) (es : List (PyStr × List Nat))
    (hi : ∀ c ∈ item, c < 0x80)
    (hn : ∀ e ∈ es, ∀ c ∈ e.1, c < 0x80) (hc : ∀ e ∈ es, ∀ x ∈ e.2, x < 256) :
    decode_item_file item (bytes_hex (utf8Encode (bytes_hex (zipBytes es)))) =
      es.head?.map (fun e => e.2) := by
  rw [decode_item_file_doublewrap item _ hi (zipBytes_lt_256 es hn hc)]
  rw [unzipBytes_zipBytes es hn, Option.some_bind]

/-- Witness for C5_theorem: a two-entry archive decodes to the first entry,
and a zero-entry archive decodes to a failure. -/
theorem C5_witness :
    decode_item_file (strLit "item")
      (bytes_hex (utf8Encode (bytes_hex (zipBytes [(strLit "x", [7]), (strLit "y", [8])])))) =
      some [7]
    ∧ decode_item_file (strLit "item")
      (bytes_hex (utf8Encode (bytes_hex (zipBytes ([] : List (PyStr × List Nat)))))) = none :=
  ⟨C5_theorem (strLit "item") _ (by decide) (by decide) (by decide),
   C5_theorem (strLit "item") _ (by decide) (by decide) (by decide)⟩

/-! ## C8: entrypoint injection is idempotent -/

theorem entrypoint_contains_marker (m c : PyStr) :
    strContains (c ++ entrypoint_code m) mainGuardMarker = true := by
  rw [strContains, List.any_eq_true]
  refine ⟨c.length + 2, ?_, ?_⟩
  · rw [List.mem_range]
    have e1 : (strLit "\n\n").length = 2 := by decide
    simp only [entrypoint_code, List.length_append, e1]
    omega
  · have h2 : (c ++ strLit "\n\n").length = c.length + 2 := by simp [strLit]
    have hsplit : c ++ entrypoint_code m
        = (c ++ strLit "\n\n")
          ++ (mainGuardMarker ++ (strLit ":\n    " ++ (m ++ strLit "().use()"))) := by
      simp [entrypoint_code, List.append_assoc]
    rw [hsplit, ← h2, List.drop_left, List.take_left]
    exact beq_self_eq_true _

/-- C8: `Packager._add_entrypoint` is idempotent: a second application leaves
the staged module file content identical to its content after the first, for
every module name and every prior content; the launcher block is never
appended twice, because the appended block itself contains the guard marker
that suppresses any further append. -/
theorem C8_theorem (m c : PyStr) :
    add_entrypoint m (add_entrypoint m c) = add_entrypoint m c := by
  unfold add_entrypoint
  cases hc : strContains c mainGuardMarker with
  | true => simp [hc]
  | false => simp [hc, entrypoint_contains_marker]

/-! ## C10: name derivation by snake_to_camel -/

/-- C10: `Packager` derives the module file name, expected class name and
archive name from `snake_to_camel` of the directory base name, which splits on
underscores and capitalizes each part (first letter upper, the rest lower).
Consequently "myItem" maps to "Myitem" (internal capitals are lost), the map
is not injective ("foo_bar" and "Foo_Bar" collide), and it is not idempotent
("foo_bar" maps to "FooBar", which maps again to "Foobar"). -/
theorem C10_theorem :
    packager_module_name (strLit "myItem") = strLit "Myitem"
    ∧ packager_pyz_name (strLit "myItem") = strLit "Myitem.pyz"
    ∧ packager_module_file (strLit "myItem") = strLit "Myitem.py"
    ∧ (snake_to_camel (strLit "foo_bar") = snake_to_camel (strLit "Foo_Bar")
        ∧ strLit "foo_bar" ≠ strLit "Foo_Bar")
    ∧ snake_to_camel (snake_to_camel (strLit "foo_bar")) ≠ snake_to_camel (strLit "foo_bar")
    ∧ snake_to_camel (strLit "FooBar") = strLit "Foobar" := by
  decide

/-! ## C6: metadata validation -/

/-- C6 counterexample: a source directory whose meta.py defines an empty
metadata dict (missing all of name, author, version, description) passes
`Packager._validate_structure` without any error, although the claim says a
mapping missing those keys is rejected with MetadataError. -/
theorem C6_counterexample :
    validate_structure (strLit "Widget") c6dir = .ok () := by
  rfl

/-- C6, corrected: `_validate_structure` only requires the metadata file to
execute and to define a dict named `metadata`; when it does, validation
passes no matter which keys the mapping contains (none of name, author,
version, description is ever inspected), and when the attribute is missing or
not a dict the failure is a ValueError, not a MetadataError (which does not
exist in the code). -/
theorem C6_theorem (module_name : PyStr) (d : SrcDir)
    (h1 : d.hasMetaFile = true) (h2 : d.hasModuleFile = true)
    (he : d.metaMod.execOk = true) (hx : d.moduleExecOk = true)
    (hc : d.classPresent = true) :
    (∀ m, d.metaMod.metadata = some m → validate_structure module_name d = .ok ())
    ∧ (d.metaMod.metadata = none →
        validate_structure module_name d
          = .error (.valueError (strLit "meta.py must define a metadata dictionary"))) := by
  constructor
  · intro m hm
    simp [validate_structure, h1, h2, he, hm, hx, hc]
  · intro hm
    simp [validate_structure, h1, h2, he, hm]

/-- Witness for C6_theorem: a metadata dict holding only a name key passes;
a meta.py without a metadata dict fails with ValueError. -/
theorem C6_witness :
    validate_structure (strLit "Widget")
      ⟨true, true, ⟨true, some [(strLit "name", strLit "w")]⟩, true, true, [], []⟩ = .ok ()
    ∧ validate_structure (strLit "Widget")
        ⟨true, true, ⟨true, none⟩, true, true, [], []⟩
        = .error (.valueError (strLit "meta.py must define a metadata dictionary")) :=
  ⟨(C6_theorem (strLit "Widget") _ rfl rfl rfl rfl rfl).1 [(strLit "name", strLit "w")] rfl,
   (C6_theorem (strLit "Widget") _ rfl rfl rfl rfl rfl).2 rfl⟩

/-! ## C7: existing output and the overwrite flag -/

/-- C7: when the output path already exists and overwrite is not forced,
`Packager.package` fails -- raising FileExistsError at the existence check,
re-raised by the blanket handler as RuntimeError chaining it (how the code
spells the OutputExistsError of the spec taxonomy) -- and the existing file is left
unchanged; with force, a valid source directory builds and the new archive
replaces the file at the output path. -/
theorem C7_theorem (module_name : PyStr) (d : SrcDir) (prior : Option ZFile) (force : Bool) :
    (prior.isSome = true → force = false →
      package module_name d prior force = (.error (.runtimeError .fileExistsError), prior))
    ∧ (force = true → validate_structure module_name d = .ok () →
      package module_name d prior force
        = (.ok (build_archive module_name d), some (build_archive module_name d))) := by
  constructor
  · intro hp hf
    simp [package, hp, hf]
  · intro hf hv
    simp [package, hf, hv]

/-- Witness for C7_theorem on a concrete valid source directory and a concrete
pre-existing output file. -/
theorem C7_witness :
    package (strLit "Widget") c7dir (some ⟨[], []⟩) false
      = (.error (.runtimeError .fileExistsError), some ⟨[], []⟩)
    ∧ package (strLit "Widget") c7dir (some ⟨[], []⟩) true
      = (.ok (build_archive (strLit "Widget") c7dir),
         some (build_archive (strLit "Widget") c7dir)) :=
  ⟨(C7_theorem (strLit "Widget") c7dir (some ⟨[], []⟩) false).1 rfl rfl,
   (C7_theorem (strLit "Widget") c7dir (some ⟨[], []⟩) true).2 rfl rfl⟩

/-! ## C2: validation isolation across the process-wide import cache -/

/-- C2 counterexample: validate candidate c2m1 (valid) under identifier
"thing", then validate candidate c2m2 (defines no class) under the same
identifier: the second validation reports true -- the stale verdict of the
first candidate, served from the process-wide module cache -- although
validating c2m2 in isolation reports false.  So the second validation result
does not depend only on the second candidate. -/
theorem C2_counterexample :
    (validate_file ((validate_file [] c2fs1 (strLit "thing.py")).2) c2fs2
        (strLit "thing.py")).1 = true
    ∧ (validate_file [] c2fs2 (strLit "thing.py")).1 = false := by
  decide

/-- C2, corrected: validation is isolated only for identifiers absent from the
process-wide module cache.  When the identifier is cached (for example by a
previous validation of another candidate under the same name), the verdict is
computed from the cached module and is independent of the new candidate; when
it is not cached, the verdict agrees with validating the candidate under an
empty cache, depending only on the candidate file. -/
theorem C2_theorem (cache : ModCache) (fs fs2 : PyStr → Option PyModuleV) (f : PyStr) :
    ((List.lookup (splitDotHead f) cache).isSome = true →
      (validate_file cache fs f).1 = (validate_file cache fs2 f).1)
    ∧ (List.lookup (splitDotHead f) cache = none →
        fs (splitDotHead f) = fs2 (splitDotHead f) →
        (validate_file cache fs f).1 = (validate_file [] fs2 f).1) := by
  constructor
  · intro h
    rw [Option.isSome_iff_exists] at h
    obtain ⟨m, hm⟩ := h
    simp [validate_file, import_module, hm]
  · intro h hfs
    simp only [validate_file, import_module, h, hfs, List.lookup]
    cases hf2 : fs2 (splitDotHead f) with
    | none => rfl
    | some m =>
      cases him : m.importOk
      · simp [him]
      · cases hcls : List.lookup (splitDotHead f) m.classes <;> simp [him, hcls]

/-- Witness for C2_theorem: the cached case at the concrete fixtures (the
stale verdict ignores the new candidate), and the fresh case. -/
theorem C2_witness :
    (validate_file [(strLit "thing", c2m1)] c2fs2 (strLit "thing.py")).1
      = (validate_file [(strLit "thing", c2m1)] c2fs1 (strLit "thing.py")).1
    ∧ (validate_file [] c2fs2 (strLit "thing.py")).1
      = (validate_file [] c2fs2 (strLit "thing.py")).1 :=
  ⟨(C2_theorem [(strLit "thing", c2m1)] c2fs2 c2fs1 (strLit "thing.py")).1 (by decide),
   (C2_theorem [] c2fs2 c2fs2 (strLit "thing.py")).2 rfl rfl⟩

/-! ## C3: batch continue-on-error -/

/-- C3 (code bug): in the three-candidate batch good1.py, bad2.py, good3.py
where bad2.py imports but defines no class named bad2, the batch loop of
`Acquisition.__init__` processes good1, then aborts: `Instance.__validate_file`
catches the lookup failure and sets valid = False, but `__enumerate_properties`
then dereferences the never-assigned `self.mod`, raising AttributeError out of
the constructor, and the loop has no handler.  good3.py is never validated or
reported, contradicting continue-on-error; the `valid` flag and the per-file
error messages show continue-on-error is the intent of the code itself. -/
theorem C3_theorem :
    acquire [] c3fs c3batch
      = ([strLit "good1.py"], some (PyErr.attributeError (strLit "mod")))
    ∧ ¬ strLit "good3.py" ∈ (acquire [] c3fs c3batch).1 := by
  constructor
  · rfl
  · decide

/-! ## C4: loader failures are not wrapped -/

/-- C4 counterexample: running an item whose `use()` raises produces the raw
original exception, not an ExecutionError wrapping it: `Usage.__use_item` has
no exception handling and no ExecutionError exists in the code. -/
theorem C4_counterexample :
    (use_item (strLit "bomb") c4src).1 = .error (.userError (strLit "boom"))
    ∧ isExecutionErrorRes (use_item (strLit "bomb") c4src).1 = false :=
  ⟨rfl, rfl⟩

/-- C4, corrected: a failure at module-exec, type-lookup, instantiation or
use-invocation makes `Usage.__use_item` propagate exactly the original
exception, unwrapped (never an ExecutionError, never swallowed), and no
inventory reduce request is issued on any failure path. -/
theorem C4_theorem (n : PyStr) (src : PyModuleExec) :
    (∀ e, src.execErr = some e → use_item n src = (.error e, []))
    ∧ (src.execErr = none → List.lookup n src.classes = none →
        use_item n src = (.error (.attributeError n), []))
    ∧ (∀ cls e, src.execErr = none → List.lookup n src.classes = some cls →
        cls.instErr = some e → use_item n src = (.error e, []))
    ∧ (∀ cls e, src.execErr = none → List.lookup n src.classes = some cls →
        cls.instErr = none → cls.useErr = some e → use_item n src = (.error e, [])) := by
  refine ⟨?_, ?_, ?_, ?_⟩
  · intro e he
    simp [use_item, he]
  · intro he hl
    simp [use_item, he, hl]
  · intro cls e he hl hi
    simp [use_item, he, hl, hi]
  · intro cls e he hl hi hu
    simp [use_item, he, hl, hi, hu]

/-- Witness for C4_theorem at the concrete module whose use() raises. -/
theorem C4_witness :
    use_item (strLit "bomb") c4src = (.error (.userError (strLit "boom")), []) :=
  (C4_theorem (strLit "bomb") c4src).2.2.2 ⟨true, none, some (.userError (strLit "boom"))⟩
    (.userError (strLit "boom")) rfl rfl rfl rfl

/-! ## C9: the reduce request never consults the consumable flag -/

/-- C9: after every successful use() invocation, `Usage.__use_item` issues the
inventory reduce request unconditionally; the consumable flag of the class -- whose
ItemSpec default is true but which is overridden to false here -- is never
consulted, so non-consumable items are decremented as well. -/
theorem C9_theorem (n : PyStr) (src : PyModuleExec) (cls : PyUseClass)
    (h1 : src.execErr = none) (h2 : List.lookup n src.classes = some cls)
    (h3 : cls.instErr = none) (h4 : cls.useErr = none) (_h5 : cls.consumable = false) :
    use_item n src = (.ok (), [RequestR.reduce n])
    ∧ itemSpec_consumable_default = true := by
  constructor
  · simp [use_item, h1, h2, h3, h4]
  · rfl

/-- Witness for C9_theorem at the concrete non-consumable item. -/
theorem C9_witness :
    use_item (strLit "snack") c9src = (.ok (), [RequestR.reduce (strLit "snack")])
    ∧ itemSpec_consumable_default = true :=
  C9_theorem (strLit "snack") c9src ⟨false, none, none⟩ rfl rfl rfl rfl rfl
